import Mathlib

/-!
Verification of the density-learning-tutorials repository's own glue code:
the `LazyMeshGrid` fractional-index-to-Cartesian-position generator, the
`ceil_float` cell-length rounding used by `load_molecule`, the per-molecule
cube-writing loops, and the `has_not_allowed_atoms` element filter from the
A3MDnet notebook.  Real numbers of the Python/numpy code are modelled by
exact rationals (`ℚ`); numpy arrays by lists; fallible operations by
`Except`/`Option`.
-/

namespace DensityTutorials

/-- Errors that `LazyMeshGrid.__getitem__` can raise: the explicit
`NotImplementedError("Indexing must be a 3xN array-like object")`, and
numpy's `IndexError` from out-of-bounds fancy indexing. -/
inductive GridError where
  | notImplemented
  | indexError
deriving DecidableEq, Repr

/-- An ASE cell as used by the notebook: `np.dot` consumes it as a 3x3
matrix (`matrix r c` is row `r`, column `c`), and `cell.lengths()` returns
the three axis lengths, modelled here as a separate field because the
Euclidean row norms are irrational in general. -/
structure Cell where
  matrix : Fin 3 → Fin 3 → ℚ
  lengths : Fin 3 → ℚ

/-- Element count of `np.arange(0, stop, step)` for a positive step:
`max(ceil(stop/step), 0)`; for a non-positive stop this is `0` (empty
array).  A step that is not positive yields an empty array here (numpy
raises on `step = 0`; every use in the notebook has a positive step). -/
def arangeLen (stop step : ℚ) : ℕ :=
  if 0 < step then (Int.ceil (stop / step)).toNat else 0

/-- Shallow embedding of `np.arange(0, stop, step)`: the list
`[0, step, 2*step, ...]` of length `arangeLen stop step`. -/
def arange (stop step : ℚ) : List ℚ :=
  (List.range (arangeLen stop step)).map (fun (i : ℕ) => (i : ℚ) * step)

/-- State of a `LazyMeshGrid` object after `__init__`. -/
structure LazyMeshGrid where
  cell : Cell
  scaled_grid_vectors : Fin 3 → List ℚ
  shape : List ℕ
  origin : Fin 3 → ℚ

/-- Embedding of `LazyMeshGrid.__init__(cell, grid_step, origin=None)`:
`scaled_grid_vectors = [np.arange(0, l, grid_step)/l for l in cell.lengths()]`,
`shape = [len(g) for g in scaled_grid_vectors] + [3]`, and the origin
defaults to the zero vector. -/
def LazyMeshGrid.init (cell : Cell) (grid_step : ℚ) (origin : Option (Fin 3 → ℚ)) :
    LazyMeshGrid :=
  let sgv : Fin 3 → List ℚ :=
    fun a => (arange (cell.lengths a) grid_step).map (fun x => x / cell.lengths a)
  { cell := cell
    scaled_grid_vectors := sgv
    shape := [(sgv 0).length, (sgv 1).length, (sgv 2).length, 3]
    origin := origin.getD (fun _ => 0) }

/-- The grid's point count along axis `a`, i.e. `shape[a]` for `a < 3`. -/
def LazyMeshGrid.shapeAt (g : LazyMeshGrid) (a : Fin 3) : ℕ :=
  g.shape.getD a.val 0

/-- Single-integer indexing of a 1-d numpy array of length `n`: valid for
`-n ≤ i < n`, with negative indices counting from the end. -/
def npIndex (v : List ℚ) (i : ℤ) : Option ℚ :=
  if 0 ≤ i ∧ i < v.length then v.get? i.toNat
  else if -(v.length : ℤ) ≤ i ∧ i < 0 then v.get? (i + v.length).toNat
  else none

/-- Fancy indexing `v[indices]` of a 1-d array by an integer array: one
element per index, raising `IndexError` on any out-of-bounds index. -/
def fancyIndex (v : List ℚ) : List ℤ → Except GridError (List ℚ)
  | [] => Except.ok []
  | i :: rest =>
    match npIndex v i, fancyIndex v rest with
    | some q, Except.ok w => Except.ok (q :: w)
    | some _, Except.error e => Except.error e
    | none, _ => Except.error GridError.indexError

/-- Nested array-like values, as accepted by `np.array(indices)`. -/
inductive NDArray where
  | scalar (z : ℤ)
  | arr (xs : List NDArray)
deriving Repr

/-- Reads an `NDArray` as a 1-d integer row, when it is one. -/
def NDArray.asRow : NDArray → Option (List ℤ)
  | NDArray.scalar _ => none
  | NDArray.arr xs =>
      xs.mapM (fun x =>
        match x with
        | NDArray.scalar z => some z
        | NDArray.arr _ => none)

/-- Keeps a list of rows only when it is non-empty and rectangular (all
rows of equal length), i.e. when stacking them yields a genuine 2-d
array. -/
def regularize (rows : List (List ℤ)) : Option (List (List ℤ)) :=
  match rows with
  | [] => none
  | r :: rs => if rs.all (fun u => u.length = r.length) then some (r :: rs) else none

/-- Reads an `NDArray` as a genuine two-dimensional matrix (a non-empty
list of equal-length integer rows): exactly the inputs for which
`np.array(indices)` has `len(shape) == 2`. -/
def NDArray.asMatrix : NDArray → Option (List (List ℤ))
  | NDArray.scalar _ => none
  | NDArray.arr xs => (xs.mapM NDArray.asRow).bind regularize

/-- The position list built from the three fancy-indexed scaled grid rows:
`grid_pos = np.stack([gridA, gridB, gridC], 1)` followed by
`np.dot(grid_pos, cell)` and `grid_pos += origin`, so row `j`, column `t`
is `origin t + gA j * cell 0 t + gB j * cell 1 t + gC j * cell 2 t`. -/
def stackDot (g : LazyMeshGrid) (gA gB gC : List ℚ) : List (Fin 3 → ℚ) :=
  (List.zip gA (List.zip gB gC)).map
    (fun p => fun t =>
      g.origin t + p.1 * g.cell.matrix 0 t + p.2.1 * g.cell.matrix 1 t
        + p.2.2 * g.cell.matrix 2 t)

/-- Body of `__getitem__` once the 3xN shape check has passed, with the
three index rows extracted. -/
def LazyMeshGrid.getitemRows (g : LazyMeshGrid) (r0 r1 r2 : List ℤ) :
    Except GridError (List (Fin 3 → ℚ)) := do
  let gA ← fancyIndex (g.scaled_grid_vectors 0) r0
  let gB ← fancyIndex (g.scaled_grid_vectors 1) r1
  let gC ← fancyIndex (g.scaled_grid_vectors 2) r2
  Except.ok (stackDot g gA gB gC)

/-- Embedding of `LazyMeshGrid.__getitem__(indices)`: `np.array(indices)`
must be a two-dimensional array whose first dimension is 3, otherwise
`NotImplementedError`; then each axis's scaled grid vector is fancy-indexed
and the positions are assembled by `stackDot`. -/
def LazyMeshGrid.getitem (g : LazyMeshGrid) (indices : NDArray) :
    Except GridError (List (Fin 3 → ℚ)) :=
  match indices.asMatrix with
  | some [r0, r1, r2] => g.getitemRows r0 r1 r2
  | some _ => Except.error GridError.notImplemented
  | none => Except.error GridError.notImplemented

/-- The method call viewed as a state transformer on the object: the body
of `__getitem__` assigns only local variables (`indices`, `gridA`, ...,
`grid_pos`) and never a `self.` field, so the post-state is the receiver
unchanged, paired with the returned value. -/
def LazyMeshGrid.getitemCall (g : LazyMeshGrid) (indices : NDArray) :
    LazyMeshGrid × Except GridError (List (Fin 3 → ℚ)) :=
  (g, g.getitem indices)

/-- The 3x1 index array `[[i], [j], [k]]` selecting one voxel. -/
def mat3 (i j k : ℤ) : NDArray :=
  NDArray.arr [NDArray.arr [NDArray.scalar i],
               NDArray.arr [NDArray.scalar j],
               NDArray.arr [NDArray.scalar k]]

/-- Embedding of `ceil_float(x, step_size)`:
`math.ceil(x / step_size) * step_size` (the epsilon subtraction in the
source is commented out). -/
def ceil_float (x step_size : ℚ) : ℚ :=
  (Int.ceil (x / step_size) : ℤ) * step_size

/-- The cell-length rounding performed by `load_molecule`: each of the
three lengths returned by `get_cell_lengths_and_angles()` is replaced by
`ceil_float` of it before `set_cell`, and the `LazyMeshGrid` is then built
from the resulting cell with the same `grid_step`. -/
def load_molecule_lengths (raw : Fin 3 → ℚ) (grid_step : ℚ) : Fin 3 → ℚ :=
  fun a => ceil_float (raw a) grid_step

/-- Observable events of one per-molecule cube-generation loop body:
constructing the `CubeWriter` with its flat header arguments
`(path, atoms, shape, origin, comment)`, and each `cubewriter.write(values)`
call appending a batch of scalar density values. -/
inductive CubeEvent where
  | construct (path : String) (natoms : ℕ) (shape : List ℕ) (origin : Fin 3 → ℚ)
      (comment : String)
  | write (values : List ℚ)

def CubeEvent.isConstruct : CubeEvent → Bool
  | CubeEvent.construct _ _ _ _ _ => true
  | CubeEvent.write _ => false

def CubeEvent.isWrite : CubeEvent → Bool
  | CubeEvent.construct _ _ _ _ _ => false
  | CubeEvent.write _ => true

/-- Concatenation of the scalar values appended by the write events of a
trace, in order. -/
def writtenValues : List CubeEvent → List ℚ
  | [] => []
  | CubeEvent.write vs :: rest => vs ++ writtenValues rest
  | CubeEvent.construct _ _ _ _ _ :: rest => writtenValues rest

/-- Row-major enumeration of an `n0 × n1 × n2` voxel grid: the first
coordinate (x) varies slowest and the last (z) fastest, as in the Gaussian
CUBE format. -/
def rowMajor (n0 n1 n2 : ℕ) : List (ℕ × ℕ × ℕ) :=
  (List.range n0).flatMap (fun i =>
    (List.range n1).flatMap (fun j =>
      (List.range n2).map (fun k => (i, j, k))))

/-- Splits a list into consecutive chunks of size `n` (fuelled recursion;
the fuel `chunkedAux n l.length l` suffices for any `n ≥ 1`). -/
def chunkedAux {α : Type} (n : ℕ) : ℕ → List α → List (List α)
  | 0, _ => []
  | _, [] => []
  | fuel + 1, x :: xs => (x :: xs).take n :: chunkedAux n fuel ((x :: xs).drop n)

def chunked {α : Type} (n : ℕ) (l : List α) : List (List α) :=
  chunkedAux n l.length l

/-- Modelled from the spec: `dataset.DensityGridIterator` (deepdft library
code, not under `src/`) streams the voxel grid of the molecule's
`LazyMeshGrid` in row-major order (x slowest, z fastest), in consecutive
batches of at most `probe_count` probes; the loop writes the predicted
density of each batch. -/
def densityGridChunks (n0 n1 n2 probe_count : ℕ) (density : ℕ × ℕ × ℕ → ℚ) :
    List (List ℚ) :=
  chunked probe_count ((rowMajor n0 n1 n2).map density)

/-- Event trace of one iteration of a cube-generation loop (both the
sugbench and the dimer loop have this shape): `utils.CubeWriter(path,
atoms, grid_position.shape[0:3], origin, "predicted by DeepDFT model")` is
constructed once, then `cubewriter.write(...)` is called once per batch of
the density-grid iterator. -/
def cubeLoopBody (path : String) (natoms : ℕ) (g : LazyMeshGrid)
    (origin : Fin 3 → ℚ) (probe_count : ℕ) (density : ℕ × ℕ × ℕ → ℚ) :
    List CubeEvent :=
  CubeEvent.construct path natoms (g.shape.take 3) origin "predicted by DeepDFT model"
    :: (densityGridChunks (g.shapeAt 0) (g.shapeAt 1) (g.shapeAt 2) probe_count
          density).map CubeEvent.write

/-- Modelled from the spec: constructing `utils.CubeWriter` (deepdft
library code, not under `src/`) opens the output path for writing and
fails when the path is not writable; in that case the loop body for the
molecule aborts before any write.  `writable` abstracts the file system's
answer for the output path. -/
def cubeLoopRun (writable : Bool) (path : String) (natoms : ℕ)
    (g : LazyMeshGrid) (origin : Fin 3 → ℚ) (probe_count : ℕ)
    (density : ℕ × ℕ × ℕ → ℚ) : Except String (List CubeEvent) :=
  if writable then Except.ok (cubeLoopBody path natoms g origin probe_count density)
  else Except.error "CubeWriter: path not writable"

/-- Embedding of `has_not_allowed_atoms(mol, allowed_elements)` from the
A3MDnet notebook.  The source computes `symbols = [i.GetSymbol() for i in
mol.GetAtoms()]` but its test is `any([i not in allowed_elements for i in
allowed_elements])`, iterating over `allowed_elements` itself; `symbols`
is never consulted. -/
def has_not_allowed_atoms (mol_symbols allowed_elements : List String) : Bool :=
  let symbols := mol_symbols
  allowed_elements.any (fun i => !(allowed_elements.contains i))

/-- The element-composition filter step of the embedding loop:
molecules with `has_not_allowed_atoms(i, ['C', 'H', 'N', 'O'])` are
skipped by `continue`, the rest are kept. -/
def embed_element_filter (mols : List (List String)) : List (List String) :=
  mols.filter (fun m => !(has_not_allowed_atoms m ["C", "H", "N", "O"]))

/-- A concrete cell used to instantiate the theorems: a cubic 2x2x2 cell. -/
def sampleCell : Cell :=
  { matrix := fun r c => if r = c then 2 else 0
    lengths := fun _ => 2 }

/-- The `LazyMeshGrid` of `sampleCell` at `grid_step = 1/2`: 4 points per axis. -/
def sampleGrid : LazyMeshGrid :=
  LazyMeshGrid.init sampleCell (1/2) none

section Lemmas

lemma arangeLen_mul (m : ℕ) (s : ℚ) (hs : 0 < s) : arangeLen ((m : ℚ) * s) s = m := by
  unfold arangeLen
  rw [if_pos hs, mul_div_cancel_right₀ _ (ne_of_gt hs)]
  simp

lemma sgv_init (c : Cell) (s : ℚ) (o : Option (Fin 3 → ℚ)) (a : Fin 3) :
    (LazyMeshGrid.init c s o).scaled_grid_vectors a
      = (arange (c.lengths a) s).map (fun x => x / c.lengths a) := rfl

lemma shapeAt_init (c : Cell) (s : ℚ) (o : Option (Fin 3 → ℚ)) (a : Fin 3) :
    (LazyMeshGrid.init c s o).shapeAt a = arangeLen (c.lengths a) s := by
  have h : ∀ b : Fin 3, ((LazyMeshGrid.init c s o).scaled_grid_vectors b).length
      = arangeLen (c.lengths b) s := by
    intro b
    rw [sgv_init, List.length_map, arange, List.length_map, List.length_range]
  fin_cases a
  · exact h 0
  · exact h 1
  · exact h 2

lemma ceil_float_shape (c : Cell) (s : ℚ) (o : Option (Fin 3 → ℚ)) (raw : Fin 3 → ℚ)
    (hs : 0 < s) (hraw : ∀ a, 0 ≤ raw a)
    (hlen : ∀ a, c.lengths a = load_molecule_lengths raw s a) (a : Fin 3) :
    ((LazyMeshGrid.init c s o).shapeAt a : ℚ) = c.lengths a / s := by
  rw [shapeAt_init, hlen]
  unfold load_molecule_lengths ceil_float arangeLen
  rw [if_pos hs, mul_div_cancel_right₀ _ (ne_of_gt hs), Int.ceil_intCast]
  have h0 : (0 : ℚ) ≤ raw a / s := div_nonneg (hraw a) (le_of_lt hs)
  have hc : (0 : ℤ) ≤ Int.ceil (raw a / s) := Int.ceil_nonneg h0
  exact_mod_cast Int.toNat_of_nonneg hc

end Lemmas

/-- C5: `ceil_float(x, step_size)` returns the least multiple of
`step_size` that is `≥ x` (for positive `step_size`, exact arithmetic);
consequently every `LazyMeshGrid` built by `load_molecule` — whose cell
lengths are `ceil_float` of the raw lengths — has exactly
`length / grid_step` sample points along each axis. -/
theorem ceil_float_least_multiple (x s : ℚ) (hs : 0 < s) :
    x ≤ ceil_float x s ∧
    (∃ k : ℤ, ceil_float x s = (k : ℚ) * s) ∧
    (∀ k : ℤ, x ≤ (k : ℚ) * s → ceil_float x s ≤ (k : ℚ) * s) ∧
    (∀ (c : Cell) (o : Option (Fin 3 → ℚ)) (raw : Fin 3 → ℚ),
       (∀ a, 0 ≤ raw a) →
       (∀ a, c.lengths a = load_molecule_lengths raw s a) →
       ∀ a, ((LazyMeshGrid.init c s o).shapeAt a : ℚ) = c.lengths a / s) := by
  refine ⟨?_, ⟨Int.ceil (x / s), rfl⟩, ?_, ?_⟩
  · have h := Int.le_ceil (x / s)
    calc x = x / s * s := by field_simp
    _ ≤ (Int.ceil (x / s) : ℚ) * s := mul_le_mul_of_nonneg_right h (le_of_lt hs)
  · intro k hk
    have hdiv : x / s ≤ (k : ℚ) := (div_le_iff₀ hs).2 hk
    have hceil : Int.ceil (x / s) ≤ k := Int.ceil_le.2 hdiv
    unfold ceil_float
    exact mul_le_mul_of_nonneg_right (by exact_mod_cast hceil) (le_of_lt hs)
  · intro c o raw hraw hlen a
    exact ceil_float_shape c s o raw hs hraw hlen a

/-- Witness for C5 at `x = 7/3`, `step_size = 1/2`. -/
theorem ceil_float_least_multiple_witness :
    (0 : ℚ) < 1/2 ∧
    ((7/3 : ℚ) ≤ ceil_float (7/3) (1/2) ∧
     (∃ k : ℤ, ceil_float (7/3 : ℚ) (1/2) = (k : ℚ) * (1/2)) ∧
     (∀ k : ℤ, (7/3 : ℚ) ≤ (k : ℚ) * (1/2) → ceil_float (7/3 : ℚ) (1/2) ≤ (k : ℚ) * (1/2)) ∧
     (∀ (c : Cell) (o : Option (Fin 3 → ℚ)) (raw : Fin 3 → ℚ),
        (∀ a, 0 ≤ raw a) →
        (∀ a, c.lengths a = load_molecule_lengths raw (1/2) a) →
        ∀ a, ((LazyMeshGrid.init c (1/2) o).shapeAt a : ℚ) = c.lengths a / (1/2))) :=
  ⟨by norm_num, ceil_float_least_multiple (7/3) (1/2) (by norm_num)⟩

/-- C9: `has_not_allowed_atoms` tests the elements of `allowed_elements`
against `allowed_elements` itself, never the molecule's symbols, so it
returns `False` on every input, and the element filter of the embedding
loop keeps every molecule. -/
theorem element_filter_never_excludes :
    (∀ (symbols allowed_elements : List String),
       has_not_allowed_atoms symbols allowed_elements = false) ∧
    (∀ mols : List (List String), embed_element_filter mols = mols) := by
  have h : ∀ (symbols allowed_elements : List String),
      has_not_allowed_atoms symbols allowed_elements = false := by
    intro symbols allowed
    simp [has_not_allowed_atoms]
  refine ⟨h, ?_⟩
  intro mols
  simp [embed_element_filter, h]

/-- C4: the coordinate transform is deterministic — the value of
`__getitem__` is a pure function of the constructor arguments
(`cell`, `grid_step`, `origin`) and the index array: equal inputs give
equal position arrays. -/
theorem getitem_deterministic (c₁ c₂ : Cell) (s₁ s₂ : ℚ)
    (o₁ o₂ : Option (Fin 3 → ℚ)) (idx₁ idx₂ : NDArray)
    (hc : c₁ = c₂) (hs : s₁ = s₂) (ho : o₁ = o₂) (hidx : idx₁ = idx₂) :
    (LazyMeshGrid.init c₁ s₁ o₁).getitem idx₁
      = (LazyMeshGrid.init c₂ s₂ o₂).getitem idx₂ := by
  subst hc hs ho hidx
  rfl

/-- Witness for C4 on `sampleCell` and the index array `[[1], [2], [3]]`. -/
theorem getitem_deterministic_witness :
    sampleCell = sampleCell ∧ (1/2 : ℚ) = 1/2 ∧
    (none : Option (Fin 3 → ℚ)) = none ∧ mat3 1 2 3 = mat3 1 2 3 ∧
    (LazyMeshGrid.init sampleCell (1/2) none).getitem (mat3 1 2 3)
      = (LazyMeshGrid.init sampleCell (1/2) none).getitem (mat3 1 2 3) :=
  ⟨rfl, rfl, rfl, rfl,
   getitem_deterministic sampleCell sampleCell (1/2) (1/2) none none
     (mat3 1 2 3) (mat3 1 2 3) rfl rfl rfl rfl⟩

/-- C7: a `__getitem__` call leaves the object's state unchanged — the
fields `cell`, `scaled_grid_vectors`, `shape` and `origin` after the call
equal those before it. -/
theorem getitem_preserves_state (g : LazyMeshGrid) (indices : NDArray) :
    (g.getitemCall indices).1.cell = g.cell ∧
    (g.getitemCall indices).1.scaled_grid_vectors = g.scaled_grid_vectors ∧
    (g.getitemCall indices).1.shape = g.shape ∧
    (g.getitemCall indices).1.origin = g.origin :=
  ⟨rfl, rfl, rfl, rfl⟩

/-- A degenerate cell whose second axis length is zero. -/
def flatCell : Cell :=
  { matrix := fun r c => if r = c then 2 else 0
    lengths := fun a => if a = 1 then 0 else 2 }

section IndexLemmas

lemma npIndex_get_nat (v : List ℚ) (i : ℕ) (h : i < v.length) :
    npIndex v (i : ℤ) = v.get? i := by
  unfold npIndex
  rw [if_pos]
  · simp
  · exact ⟨Int.ofNat_nonneg i, by exact_mod_cast h⟩

lemma sgv_entry (c : Cell) (s : ℚ) (o : Option (Fin 3 → ℚ)) (a : Fin 3) (m i : ℕ)
    (hs : 0 < s) (hm : 0 < m) (hlen : c.lengths a = (m : ℚ) * s) (hi : i < m) :
    npIndex ((LazyMeshGrid.init c s o).scaled_grid_vectors a) (i : ℤ)
      = some ((i : ℚ) / (m : ℚ)) := by
  have hlen2 : ((LazyMeshGrid.init c s o).scaled_grid_vectors a).length = m := by
    rw [sgv_init, List.length_map, arange, List.length_map, List.length_range, hlen,
      arangeLen_mul m s hs]
  rw [npIndex_get_nat _ i (by rw [hlen2]; exact hi)]
  rw [sgv_init, hlen, arange, arangeLen_mul m s hs]
  rw [List.get?_map, List.get?_map, List.get?_range hi]
  simp only [Option.map_some']
  congr 1
  rw [mul_div_mul_right _ _ (ne_of_gt hs)]

lemma fancyIndex_singleton_some (v : List ℚ) (i : ℤ) (q : ℚ) (h : npIndex v i = some q) :
    fancyIndex v [i] = Except.ok [q] := by
  simp [fancyIndex, h]

lemma fancyIndex_singleton_none (v : List ℚ) (i : ℤ) (h : npIndex v i = none) :
    fancyIndex v [i] = Except.error GridError.indexError := by
  simp [fancyIndex, h]

lemma asMatrix_mat3 (i j k : ℤ) :
    (mat3 i j k).asMatrix = some [[i], [j], [k]] := rfl

lemma getitem_mat3 (g : LazyMeshGrid) (i j k : ℤ) :
    g.getitem (mat3 i j k) = g.getitemRows [i] [j] [k] := rfl

lemma arangeLen_nonpos (l s : ℚ) (hl : l ≤ 0) : arangeLen l s = 0 := by
  unfold arangeLen
  split
  · rename_i hs
    have hdiv : l / s ≤ 0 := div_nonpos_of_nonpos_of_nonneg hl (le_of_lt hs)
    have hceil : Int.ceil (l / s) ≤ 0 := Int.ceil_le.mpr (by exact_mod_cast hdiv)
    exact Int.toNat_of_nonpos hceil
  · rfl

lemma sgv_init_nil (c : Cell) (s : ℚ) (o : Option (Fin 3 → ℚ)) (a : Fin 3)
    (ha : c.lengths a ≤ 0) :
    (LazyMeshGrid.init c s o).scaled_grid_vectors a = [] := by
  rw [sgv_init]
  simp [arange, arangeLen_nonpos _ s ha]

lemma npIndex_nil (i : ℤ) : npIndex [] i = none := by
  unfold npIndex
  rw [if_neg, if_neg] <;> simp

lemma fancyIndex_ok_or_indexError (v : List ℚ) (l : List ℤ) :
    (∃ w, fancyIndex v l = Except.ok w) ∨
    fancyIndex v l = Except.error GridError.indexError := by
  induction l with
  | nil => exact Or.inl ⟨[], rfl⟩
  | cons i l ih =>
    cases h : npIndex v i with
    | none =>
      right
      simp [fancyIndex, h]
    | some q =>
      rcases ih with ⟨w, hw⟩ | herr
      · exact Or.inl ⟨q :: w, by simp [fancyIndex, h, hw]⟩
      · right
        simp [fancyIndex, h, herr]

end IndexLemmas

/-- C1: for a `LazyMeshGrid` over a cell whose three axis lengths are
positive exact multiples `m0*s, m1*s, m2*s` of the grid step `s`, and any
in-range voxel index `(i, j, k)`, `shape` is `(m0, m1, m2)` and
`__getitem__([[i],[j],[k]])` returns exactly
`origin + (i/m0, j/m1, k/m2) · cell_matrix`. -/
theorem getitem_exact_transform (c : Cell) (s : ℚ) (o : Option (Fin 3 → ℚ))
    (m0 m1 m2 : ℕ) (i j k : ℕ)
    (hs : 0 < s) (hm0 : 0 < m0) (hm1 : 0 < m1) (hm2 : 0 < m2)
    (hl0 : c.lengths 0 = (m0 : ℚ) * s) (hl1 : c.lengths 1 = (m1 : ℚ) * s)
    (hl2 : c.lengths 2 = (m2 : ℚ) * s)
    (hi : i < m0) (hj : j < m1) (hk : k < m2) :
    (LazyMeshGrid.init c s o).shapeAt 0 = m0 ∧
    (LazyMeshGrid.init c s o).shapeAt 1 = m1 ∧
    (LazyMeshGrid.init c s o).shapeAt 2 = m2 ∧
    (LazyMeshGrid.init c s o).getitem (mat3 i j k)
      = Except.ok [fun t => (LazyMeshGrid.init c s o).origin t
          + ((i : ℚ) / (m0 : ℚ)) * c.matrix 0 t
          + ((j : ℚ) / (m1 : ℚ)) * c.matrix 1 t
          + ((k : ℚ) / (m2 : ℚ)) * c.matrix 2 t] := by
  have h0 := sgv_entry c s o 0 m0 i hs hm0 hl0 hi
  have h1 := sgv_entry c s o 1 m1 j hs hm1 hl1 hj
  have h2 := sgv_entry c s o 2 m2 k hs hm2 hl2 hk
  refine ⟨?_, ?_, ?_, ?_⟩
  · rw [shapeAt_init, hl0, arangeLen_mul m0 s hs]
  · rw [shapeAt_init, hl1, arangeLen_mul m1 s hs]
  · rw [shapeAt_init, hl2, arangeLen_mul m2 s hs]
  · rw [getitem_mat3]
    unfold LazyMeshGrid.getitemRows
    rw [fancyIndex_singleton_some _ _ _ h0, fancyIndex_singleton_some _ _ _ h1,
      fancyIndex_singleton_some _ _ _ h2]
    rfl

/-- Witness for C1 on the cubic 2x2x2 cell with grid step 1/2 and
voxel (1, 2, 3). -/
theorem getitem_exact_transform_witness :
    ((0 : ℚ) < 1/2 ∧ 0 < 4 ∧
     sampleCell.lengths 0 = (4 : ℚ) * (1/2) ∧
     sampleCell.lengths 1 = (4 : ℚ) * (1/2) ∧
     sampleCell.lengths 2 = (4 : ℚ) * (1/2) ∧
     1 < 4 ∧ 2 < 4 ∧ 3 < 4) ∧
    ((LazyMeshGrid.init sampleCell (1/2) none).shapeAt 0 = 4 ∧
     (LazyMeshGrid.init sampleCell (1/2) none).shapeAt 1 = 4 ∧
     (LazyMeshGrid.init sampleCell (1/2) none).shapeAt 2 = 4 ∧
     (LazyMeshGrid.init sampleCell (1/2) none).getitem (mat3 1 2 3)
       = Except.ok [fun t => (LazyMeshGrid.init sampleCell (1/2) none).origin t
           + ((1 : ℚ) / (4 : ℚ)) * sampleCell.matrix 0 t
           + ((2 : ℚ) / (4 : ℚ)) * sampleCell.matrix 1 t
           + ((3 : ℚ) / (4 : ℚ)) * sampleCell.matrix 2 t]) :=
  ⟨⟨by norm_num, by norm_num, by norm_num [sampleCell], by norm_num [sampleCell],
     by norm_num [sampleCell], by norm_num, by norm_num, by norm_num⟩,
   getitem_exact_transform sampleCell (1/2) none 4 4 4 1 2 3
     (by norm_num) (by norm_num) (by norm_num) (by norm_num)
     (by norm_num [sampleCell]) (by norm_num [sampleCell]) (by norm_num [sampleCell])
     (by norm_num) (by norm_num) (by norm_num)⟩

/-- C3: when some axis of the cell has a non-positive length (and the grid
step is positive), that axis's scaled grid vector is empty, the
corresponding shape entry is 0, and `__getitem__` raises `IndexError` for
every single-voxel index triple instead of returning a position. -/
theorem getitem_fails_on_nonpositive_axis (c : Cell) (s : ℚ) (o : Option (Fin 3 → ℚ))
    (a : Fin 3) (hs : 0 < s) (ha : c.lengths a ≤ 0) :
    (LazyMeshGrid.init c s o).shapeAt a = 0 ∧
    ∀ i j k : ℤ, (LazyMeshGrid.init c s o).getitem (mat3 i j k)
      = Except.error GridError.indexError := by
  refine ⟨by rw [shapeAt_init]; exact arangeLen_nonpos _ s ha, ?_⟩
  intro i j k
  rw [getitem_mat3]
  unfold LazyMeshGrid.getitemRows
  set g := LazyMeshGrid.init c s o with hg
  have ha3 : a = 0 ∨ a = 1 ∨ a = 2 := by
    fin_cases a <;> simp
  have hfail : ∀ z : ℤ, fancyIndex (g.scaled_grid_vectors a) [z]
      = Except.error GridError.indexError := by
    intro z
    refine fancyIndex_singleton_none _ _ ?_
    rw [hg, sgv_init_nil c s o a ha]
    exact npIndex_nil z
  rcases ha3 with rfl | rfl | rfl
  · rw [hfail i]
    rfl
  · rcases fancyIndex_ok_or_indexError (g.scaled_grid_vectors 0) [i] with ⟨w, hw⟩ | herr
    · rw [hw, hfail j]
      rfl
    · rw [herr]
      rfl
  · rcases fancyIndex_ok_or_indexError (g.scaled_grid_vectors 0) [i] with ⟨w, hw⟩ | herr
    · rcases fancyIndex_ok_or_indexError (g.scaled_grid_vectors 1) [j] with ⟨w2, hw2⟩ | herr2
      · rw [hw, hw2, hfail k]
        rfl
      · rw [hw, herr2]
        rfl
    · rw [herr]
      rfl

/-- Witness for C3 on a cell whose second axis has length 0. -/
theorem getitem_fails_witness :
    ((0 : ℚ) < 1/2 ∧ flatCell.lengths 1 ≤ 0) ∧
    ((LazyMeshGrid.init flatCell (1/2) none).shapeAt 1 = 0 ∧
     ∀ i j k : ℤ, (LazyMeshGrid.init flatCell (1/2) none).getitem (mat3 i j k)
       = Except.error GridError.indexError) :=
  ⟨⟨by norm_num, by norm_num [flatCell]⟩,
   getitem_fails_on_nonpositive_axis flatCell (1/2) none 1 (by norm_num)
     (by norm_num [flatCell])⟩


lemma fancyIndex_all_isSome (v : List ℚ) (l : List ℤ)
    (h : ∀ z ∈ l, (npIndex v z).isSome) :
    ∃ w, fancyIndex v l = Except.ok w ∧ w.length = l.length := by
  induction l with
  | nil => exact ⟨[], rfl, rfl⟩
  | cons i l ih =>
    have hi : (npIndex v i).isSome := h i (List.mem_cons_self i l)
    rcases Option.isSome_iff_exists.mp hi with ⟨q, hq⟩
    rcases ih (fun z hz => h z (List.mem_cons_of_mem i hz)) with ⟨w, hw, hlen⟩
    refine ⟨q :: w, ?_, by simp [hlen]⟩
    simp [fancyIndex, hq, hw]

lemma getitemRows_ok_or_indexError (g : LazyMeshGrid) (r0 r1 r2 : List ℤ) :
    (∃ ps, g.getitemRows r0 r1 r2 = Except.ok ps) ∨
    g.getitemRows r0 r1 r2 = Except.error GridError.indexError := by
  unfold LazyMeshGrid.getitemRows
  rcases fancyIndex_ok_or_indexError (g.scaled_grid_vectors 0) r0 with ⟨w0, h0⟩ | h0
  · rcases fancyIndex_ok_or_indexError (g.scaled_grid_vectors 1) r1 with ⟨w1, h1⟩ | h1
    · rcases fancyIndex_ok_or_indexError (g.scaled_grid_vectors 2) r2 with ⟨w2, h2⟩ | h2
      · exact Or.inl ⟨stackDot g w0 w1 w2, by rw [h0, h1, h2]; rfl⟩
      · right; rw [h0, h1, h2]; rfl
    · right; rw [h0, h1]; rfl
  · right; rw [h0]; rfl

lemma regularize_some (rows out : List (List ℤ)) (h : regularize rows = some out) :
    out = rows ∧ ∃ r rs, rows = r :: rs ∧ ∀ u ∈ rs, u.length = r.length := by
  cases rows with
  | nil => simp [regularize] at h
  | cons a as =>
    have hr : regularize (a :: as)
        = if as.all (fun u => u.length = a.length) then some (a :: as) else none := rfl
    rw [hr] at h
    by_cases hall : as.all (fun u => u.length = a.length)
    · rw [if_pos hall] at h
      refine ⟨(Option.some.inj h).symm, a, as, rfl, ?_⟩
      intro u hu
      simpa using List.all_eq_true.mp hall u hu
    · rw [if_neg hall] at h
      exact absurd h (by simp)

lemma asMatrix_rows_length (x : NDArray) (r : List ℤ) (rs : List (List ℤ))
    (h : x.asMatrix = some (r :: rs)) : ∀ u ∈ rs, u.length = r.length := by
  cases x with
  | scalar z => simp [NDArray.asMatrix] at h
  | arr xs =>
    have h2 : (xs.mapM NDArray.asRow).bind regularize = some (r :: rs) := h
    cases hm : xs.mapM NDArray.asRow with
    | none => rw [hm] at h2; exact absurd h2 (by simp)
    | some rows =>
      rw [hm] at h2
      simp only [Option.some_bind] at h2
      rcases regularize_some rows (r :: rs) h2 with ⟨hout, a, as, hrows, hlen⟩
      rw [hrows] at hout
      have ha : r = a := (List.cons.inj hout).1
      have has : rs = as := (List.cons.inj hout).2
      rw [ha, has]
      exact hlen

/-- C6: `__getitem__` raises `NotImplementedError` if and only if the
indices argument is not a two-dimensional array whose first dimension is
3; for every valid 3xN index array whose entries are in bounds it returns
one Cartesian position per column of the input. -/
theorem getitem_notImplemented_characterization (g : LazyMeshGrid) (idx : NDArray) :
    (g.getitem idx = Except.error GridError.notImplemented ↔
       ¬ ∃ r0 r1 r2 : List ℤ, idx.asMatrix = some [r0, r1, r2]) ∧
    (∀ r0 r1 r2 : List ℤ, idx.asMatrix = some [r0, r1, r2] →
       (∀ z ∈ r0, (npIndex (g.scaled_grid_vectors 0) z).isSome) →
       (∀ z ∈ r1, (npIndex (g.scaled_grid_vectors 1) z).isSome) →
       (∀ z ∈ r2, (npIndex (g.scaled_grid_vectors 2) z).isSome) →
       ∃ ps, g.getitem idx = Except.ok ps ∧ ps.length = r0.length) := by
  constructor
  · constructor
    · intro herr hex
      rcases hex with ⟨r0, r1, r2, hmat⟩
      have hget : g.getitem idx = g.getitemRows r0 r1 r2 := by
        unfold LazyMeshGrid.getitem
        rw [hmat]
      rw [hget] at herr
      rcases getitemRows_ok_or_indexError g r0 r1 r2 with ⟨ps, hok⟩ | hix
      · rw [herr] at hok; exact Except.noConfusion hok
      · rw [herr] at hix
        have := Except.error.inj hix
        exact GridError.noConfusion this
    · intro hne
      unfold LazyMeshGrid.getitem
      cases hmat : idx.asMatrix with
      | none => rfl
      | some rows =>
        rcases rows with _ | ⟨r0, _ | ⟨r1, _ | ⟨r2, _ | ⟨r3, rest⟩⟩⟩⟩
        · rfl
        · rfl
        · rfl
        · exact absurd ⟨r0, r1, r2, hmat⟩ hne
        · rfl
  · intro r0 r1 r2 hmat h0 h1 h2
    have hget : g.getitem idx = g.getitemRows r0 r1 r2 := by
      unfold LazyMeshGrid.getitem
      rw [hmat]
    rcases fancyIndex_all_isSome (g.scaled_grid_vectors 0) r0 h0 with ⟨w0, hw0, hl0⟩
    rcases fancyIndex_all_isSome (g.scaled_grid_vectors 1) r1 h1 with ⟨w1, hw1, hl1⟩
    rcases fancyIndex_all_isSome (g.scaled_grid_vectors 2) r2 h2 with ⟨w2, hw2, hl2⟩
    have heq1 : r1.length = r0.length := asMatrix_rows_length idx r0 [r1, r2] hmat r1 (by simp)
    have heq2 : r2.length = r0.length := asMatrix_rows_length idx r0 [r1, r2] hmat r2 (by simp)
    refine ⟨stackDot g w0 w1 w2, ?_, ?_⟩
    · rw [hget]
      unfold LazyMeshGrid.getitemRows
      rw [hw0, hw1, hw2]
      rfl
    · simp [stackDot, List.length_zip, hl0, hl1, hl2, heq1, heq2]


/-- Witness for C6 on the 4x4x4 sample grid and the 3x1 index array
`[[1], [2], [3]]`. -/
theorem getitem_valid_witness :
    ((mat3 1 2 3).asMatrix = some [[1], [2], [3]]) ∧
    (∃ ps, sampleGrid.getitem (mat3 1 2 3) = Except.ok ps ∧ ps.length = 1) :=
  ⟨rfl,
   (getitem_notImplemented_characterization sampleGrid (mat3 1 2 3)).2 [1] [2] [3] rfl
     (by
       intro z hz
       rw [List.mem_singleton] at hz
       subst hz
       show (npIndex ((LazyMeshGrid.init sampleCell (1/2) none).scaled_grid_vectors 0)
         ((1 : ℕ) : ℤ)).isSome = true
       rw [sgv_entry sampleCell (1/2) none 0 4 1 (by norm_num) (by norm_num)
         (by norm_num [sampleCell]) (by norm_num)]
       rfl)
     (by
       intro z hz
       rw [List.mem_singleton] at hz
       subst hz
       show (npIndex ((LazyMeshGrid.init sampleCell (1/2) none).scaled_grid_vectors 1)
         ((2 : ℕ) : ℤ)).isSome = true
       rw [sgv_entry sampleCell (1/2) none 1 4 2 (by norm_num) (by norm_num)
         (by norm_num [sampleCell]) (by norm_num)]
       rfl)
     (by
       intro z hz
       rw [List.mem_singleton] at hz
       subst hz
       show (npIndex ((LazyMeshGrid.init sampleCell (1/2) none).scaled_grid_vectors 2)
         ((3 : ℕ) : ℤ)).isSome = true
       rw [sgv_entry sampleCell (1/2) none 2 4 3 (by norm_num) (by norm_num)
         (by norm_num [sampleCell]) (by norm_num)]
       rfl)⟩

lemma chunkedAux_join {α : Type} (n : ℕ) (hn : 0 < n) :
    ∀ (fuel : ℕ) (l : List α), l.length ≤ fuel → (chunkedAux n fuel l).join = l := by
  intro fuel
  induction fuel with
  | zero =>
    intro l hl
    have hnil : l = [] := List.eq_nil_of_length_eq_zero (Nat.le_zero.mp hl)
    subst hnil
    rfl
  | succ fuel ih =>
    intro l hl
    cases l with
    | nil => rfl
    | cons x xs =>
      have hdrop : ((x :: xs).drop n).length ≤ fuel := by
        rw [List.length_drop]
        simp only [List.length_cons] at hl ⊢
        omega
      calc (chunkedAux n (fuel + 1) (x :: xs)).join
          = (x :: xs).take n ++ (chunkedAux n fuel ((x :: xs).drop n)).join := by
            simp [chunkedAux]
      _ = (x :: xs).take n ++ (x :: xs).drop n := by rw [ih _ hdrop]
      _ = x :: xs := List.take_append_drop n (x :: xs)

lemma chunked_join {α : Type} (n : ℕ) (hn : 0 < n) (l : List α) :
    (chunked n l).join = l :=
  chunkedAux_join n hn l.length l (le_refl _)

lemma writes_filter_construct (ws : List (List ℚ)) :
    (ws.map CubeEvent.write).filter CubeEvent.isConstruct = [] := by
  induction ws with
  | nil => rfl
  | cons w ws ih => simp [CubeEvent.isConstruct, ih]

lemma writes_all_write (ws : List (List ℚ)) :
    (ws.map CubeEvent.write).all CubeEvent.isWrite = true := by
  induction ws with
  | nil => rfl
  | cons w ws ih => simp [CubeEvent.isWrite, ih]

lemma writtenValues_writes (ws : List (List ℚ)) :
    writtenValues (ws.map CubeEvent.write) = ws.join := by
  induction ws with
  | nil => rfl
  | cons w ws ih => simp [writtenValues, ih]

/-- C2: in a per-molecule cube-generation loop the writer is constructed
exactly once, first, with the flat header (path, atom count, the first
three entries of the grid shape, origin, comment); every later event is a
`write`, and the written scalars concatenate to the voxel grid streamed in
row-major order (x slowest, z fastest). -/
theorem cube_loop_header_then_rowmajor_writes (path : String) (natoms : ℕ)
    (g : LazyMeshGrid) (origin : Fin 3 → ℚ) (probe_count : ℕ)
    (density : ℕ × ℕ × ℕ → ℚ) (hp : 0 < probe_count) :
    (cubeLoopBody path natoms g origin probe_count density).head?
      = some (CubeEvent.construct path natoms (g.shape.take 3) origin
          "predicted by DeepDFT model") ∧
    ((cubeLoopBody path natoms g origin probe_count density).filter
        CubeEvent.isConstruct).length = 1 ∧
    (cubeLoopBody path natoms g origin probe_count density).tail.all
        CubeEvent.isWrite = true ∧
    writtenValues (cubeLoopBody path natoms g origin probe_count density).tail
      = (rowMajor (g.shapeAt 0) (g.shapeAt 1) (g.shapeAt 2)).map density := by
  refine ⟨rfl, ?_, ?_, ?_⟩
  · show (List.filter CubeEvent.isConstruct
      (CubeEvent.construct path natoms (g.shape.take 3) origin "predicted by DeepDFT model"
        :: (densityGridChunks (g.shapeAt 0) (g.shapeAt 1) (g.shapeAt 2) probe_count
              density).map CubeEvent.write)).length = 1
    rw [List.filter_cons_of_pos (by rfl), writes_filter_construct]
    rfl
  · exact writes_all_write _
  · show writtenValues ((densityGridChunks (g.shapeAt 0) (g.shapeAt 1) (g.shapeAt 2)
        probe_count density).map CubeEvent.write)
      = (rowMajor (g.shapeAt 0) (g.shapeAt 1) (g.shapeAt 2)).map density
    rw [writtenValues_writes]
    exact chunked_join probe_count hp _

/-- Witness for C2 on the sample grid with batch size 1000. -/
theorem cube_loop_header_witness :
    0 < 1000 ∧
    ((cubeLoopBody "out.cube" 5 sampleGrid (fun _ => 0) 1000 (fun _ => 0)).head?
       = some (CubeEvent.construct "out.cube" 5 (sampleGrid.shape.take 3) (fun _ => 0)
           "predicted by DeepDFT model") ∧
     ((cubeLoopBody "out.cube" 5 sampleGrid (fun _ => 0) 1000 (fun _ => 0)).filter
         CubeEvent.isConstruct).length = 1 ∧
     (cubeLoopBody "out.cube" 5 sampleGrid (fun _ => 0) 1000 (fun _ => 0)).tail.all
         CubeEvent.isWrite = true ∧
     writtenValues (cubeLoopBody "out.cube" 5 sampleGrid (fun _ => 0) 1000
         (fun _ => 0)).tail
       = (rowMajor (sampleGrid.shapeAt 0) (sampleGrid.shapeAt 1)
           (sampleGrid.shapeAt 2)).map (fun _ => 0)) :=
  ⟨by norm_num,
   cube_loop_header_then_rowmajor_writes "out.cube" 5 sampleGrid (fun _ => 0) 1000
     (fun _ => 0) (by norm_num)⟩

/-- C8: when the output cube path is not writable, constructing the cube
writer fails and the loop body for that molecule produces no event trace:
no density value is appended. -/
theorem cube_loop_unwritable_no_writes (writable : Bool) (path : String) (natoms : ℕ)
    (g : LazyMeshGrid) (origin : Fin 3 → ℚ) (probe_count : ℕ)
    (density : ℕ × ℕ × ℕ → ℚ) (h : writable = false) :
    cubeLoopRun writable path natoms g origin probe_count density
      = Except.error "CubeWriter: path not writable" ∧
    ∀ evs, cubeLoopRun writable path natoms g origin probe_count density
      ≠ Except.ok evs := by
  subst h
  refine ⟨rfl, ?_⟩
  intro evs hok
  exact Except.noConfusion hok

/-- Witness for C8 on an unwritable path. -/
theorem cube_loop_unwritable_witness :
    false = false ∧
    (cubeLoopRun false "out.cube" 5 sampleGrid (fun _ => 0) 1000 (fun _ => 0)
       = Except.error "CubeWriter: path not writable" ∧
     ∀ evs, cubeLoopRun false "out.cube" 5 sampleGrid (fun _ => 0) 1000 (fun _ => 0)
       ≠ Except.ok evs) :=
  ⟨rfl,
   cube_loop_unwritable_no_writes false "out.cube" 5 sampleGrid (fun _ => 0) 1000
     (fun _ => 0) rfl⟩

end DensityTutorials
